import Mathlib

/-!
Verification development for the trueseeing static-analysis core.

The definitions below are a shallow embedding of the code in
src/trueseeing/core/code/parse.py, src/trueseeing/core/report.py and
src/trueseeing/signature/security.py.  Python strings are Lean
`String`s, Python ints are `Nat`/`Int`, Python floats are `ℚ` (every
numeric computation the theorems touch is exact in binary floating
point, so `ℚ` is a faithful model of those runs), raised exceptions are
`Except`/`Option` error values, and generators are eagerly materialised
lists.  Data classes that live outside the provided sources
(trueseeing.core.code.model.Op, trueseeing.core.issue.Issue,
trueseeing.core.tools.noneif, the DataFlows solver's result type) are
modelled from the specification and are marked as such.
-/

/-! ## Generic string helpers -/

/-- Occurrence of `needle` as a contiguous sublist of the haystack;
models the Python substring test used by the parser and detectors. -/
def sub_occurs (needle : List Char) : List Char → Bool
  | [] => needle.isPrefixOf []
  | c :: cs => needle.isPrefixOf (c :: cs) || sub_occurs needle cs

/-- Python's `needle in hay` on strings. -/
def contains_sub (hay needle : String) : Bool :=
  sub_occurs needle.data hay.data

/-- Python's `hay.endswith(suf)` (used to model the regex `di?p$`). -/
def ends_with (s suf : String) : Bool :=
  suf.data.isSuffixOf s.data

/-- Span of a character predicate: longest matched prefix and the rest. -/
def span2 (p : Char → Bool) (l : List Char) : List Char × List Char :=
  (l.takeWhile p, l.dropWhile p)

/-- Python `str.split(sep)` for a one-character separator. -/
def split_ch (sep : Char) : List Char → List Char → List String
  | [], acc => [String.mk acc.reverse]
  | c :: rest, acc =>
    if c == sep then String.mk acc.reverse :: split_ch sep rest []
    else split_ch sep rest (c :: acc)

def split_str (s : String) (sep : Char) : List String :=
  split_ch sep s.data []

/-- Models Python `int(s, 16)` on the hexadecimal strings the constant
solver produces ("0x1", "1f", ...); `none` models the ValueError raised
on non-hexadecimal input.  Signs and underscores do not occur in solved
smali constants and are out of the modelled scope. -/
def hex_digit_val (c : Char) : Option Nat :=
  if c.isDigit then some (c.toNat - 48)
  else if 'a' ≤ c ∧ c ≤ 'f' then some (c.toNat - 87)
  else if 'A' ≤ c ∧ c ≤ 'F' then some (c.toNat - 55)
  else none

def parse_hex_digits : List Char → Nat → Option Nat
  | [], acc => some acc
  | c :: cs, acc =>
    match hex_digit_val c with
    | some d => parse_hex_digits cs (16 * acc + d)
    | none => none

def parse_hex (s : String) : Option Nat :=
  match s.data with
  | [] => none
  | '0' :: 'x' :: rest => if rest.isEmpty then none else parse_hex_digits rest 0
  | '0' :: 'X' :: rest => if rest.isEmpty then none else parse_hex_digits rest 0
  | cs => parse_hex_digits cs 0

/-! ## Data model

Modelled from the spec: `Op` (trueseeing.core.code.model, outside the
provided sources) is "one parsed token triple (kind, value, parameters)"
with a dense identifier and an index-within-line; `eq` compares kind and
value.  Identifiers are attached later by the indexer, so they are not a
field here. -/

structure Op where
  t : String
  v : String
  p : List Op := []
  idx : Nat := 0

/-- Python `Op.eq(t, v)`: kind and value comparison. -/
def Op.eq (o : Op) (tk vl : String) : Bool :=
  o.t == tk && o.v == vl

/-! ## Lexer (P._lexed_as_smali)

The source tokenizes one line with `re.finditer` over the alternation
`label | multilabel | directive | string | comment | reg | multireg |
id | reflike`.  Each matcher below is the direct translation of one
alternative; `match_at` tries them in the regex's order at one position,
and `lex_go` is `finditer`'s scan loop (on failure the scan advances one
character).  Every alternative matches at least one character, so the
fuel `length + 1` in `lexed_as_smali` never runs out before the input
does. -/

def brace_open : Char := Char.ofNat 123

def brace_close : Char := Char.ofNat 125

/-- Character class `[a-z0-9_-]` of the label and directive groups. -/
def label_char (c : Char) : Bool :=
  c.isLower || c.isDigit || c == '_' || c == '-'

/-- The id alternative is a lowercase letter, then a starred run over
lowercase letters, slash and hyphen, then a starred run that adds the
digits.  Both starred classes are contained in this one and the second
contains the first, so the greedy match is exactly a lowercase letter
followed by the maximal run of this class. -/
def id_char (c : Char) : Bool :=
  c.isLower || c.isDigit || c == '/' || c == '-'

/-- Character class `[vp0-9,. ]` of the multireg group. -/
def multireg_char (c : Char) : Bool :=
  c == 'v' || c == 'p' || c.isDigit || c == ',' || c == '.' || c == ' '

/-- Python `\s` restricted to ASCII: space, tab, newline, vertical tab,
form feed, carriage return. -/
def space_char (c : Char) : Bool :=
  c == ' ' || c == '\t' || c == '\n' || c == '\r' ||
    c == Char.ofNat 11 || c == Char.ofNat 12

/-- `:(?P<label>[a-z0-9_-]+)` -/
def match_label : List Char → Option (String × List Char)
  | ':' :: rest =>
    match span2 label_char rest with
    | (r, rest2) => if r.isEmpty then none else some (String.mk r, rest2)
  | _ => none

/-- All rests reachable by `(?: .. )*` (a literal " .. " repeated), in
greedy order: the longest expansion first, exactly as the backtracking
engine tries them. -/
def dotdot_rests : List Char → List (List Char)
  | ' ' :: '.' :: '.' :: ' ' :: cs =>
    dotdot_rests cs ++ [' ' :: '.' :: '.' :: ' ' :: cs]
  | cs => [cs]

/-- Rests after one `:[a-z0-9_-]+(?: .. )*` iteration.  The name run is
necessarily maximal: shortening it exposes a `[a-z0-9_-]` character
where the engine would need one of space, colon or the closing brace,
so no backtracking into the run can succeed. -/
def iter_rests (cs : List Char) : List (List Char) :=
  match cs with
  | ':' :: cs' =>
    match span2 label_char cs' with
    | (nm, rest) => if nm.isEmpty then [] else dotdot_rests rest
  | _ => []

/-- Rests after `(?::[a-z0-9_-]+(?: .. )*)+`, in greedy order.  Each
iteration consumes at least two characters, so fuel `length + 1`
enumerates every derivation. -/
def plus_rests : Nat → List Char → List (List Char)
  | 0, _ => []
  | Nat.succ fuel, cs =>
    (iter_rests cs).flatMap (fun r => plus_rests fuel r ++ [r])

/-- `{\s*(?P<multilabel>(?::[a-z0-9_-]+(?: .. )*)+\s*)}`.  The leading
`\s*` is forcibly maximal (the group must start with a colon), and after
the `+` the trailing `\s*` before the closing brace is likewise forced,
so only the `+`/` .. ` structure needs enumeration. -/
def match_multilabel (cs : List Char) : Option (String × List Char) :=
  match cs with
  | c :: rest =>
    if c == brace_open then
      match span2 space_char rest with
      | (_, g0) =>
        (plus_rests (g0.length + 1) g0).findSome? (fun r =>
          match span2 space_char r with
          | (_, r2) =>
            match r2 with
            | c2 :: rest3 =>
              if c2 == brace_close then
                some (String.mk (g0.take (g0.length - r2.length)), rest3)
              else none
            | [] => none)
    else none
  | [] => none

/-- `\.(?P<directive>[a-z0-9_-]+)` -/
def match_directive : List Char → Option (String × List Char)
  | '.' :: rest =>
    match span2 label_char rest with
    | (r, rest2) => if r.isEmpty then none else some (String.mk r, rest2)
  | _ => none

/-- `"(?P<string>.*)"`: `.*` is greedy and does not cross a newline, so
the capture extends to the last quote of the line. -/
def match_string : List Char → Option (String × List Char)
  | '"' :: rest =>
    match span2 (fun c => !(c == '\n')) rest with
    | (line, nl) =>
      match span2 (fun c => !(c == '"')) line.reverse with
      | (after_rev, upto) =>
        match upto with
        | _ :: before_rev => some (String.mk before_rev.reverse, after_rev.reverse ++ nl)
        | [] => none
  | _ => none

/-- `#(?P<comment>.*)` -/
def match_comment : List Char → Option (String × List Char)
  | '#' :: rest =>
    match span2 (fun c => !(c == '\n')) rest with
    | (c1, nl) => some (String.mk c1, nl)
  | _ => none

/-- `(?P<reg>[vp][0-9]+)` -/
def match_reg : List Char → Option (String × List Char)
  | c :: rest =>
    if c == 'v' || c == 'p' then
      match span2 Char.isDigit rest with
      | (ds, rest2) => if ds.isEmpty then none else some (String.mk (c :: ds), rest2)
    else none
  | [] => none

/-- `{(?P<multireg>[vp0-9,. ]+)}`: the run is maximal and the class
excludes the closing brace, so no backtracking applies. -/
def match_multireg : List Char → Option (String × List Char)
  | c :: rest =>
    if c == brace_open then
      match span2 multireg_char rest with
      | (r, rest2) =>
        if r.isEmpty then none
        else
          match rest2 with
          | c2 :: rest3 => if c2 == brace_close then some (String.mk r, rest3) else none
          | [] => none
    else none
  | [] => none

/-- The named group id of the source regex (see `id_char`). -/
def match_id : List Char → Option (String × List Char)
  | c :: rest =>
    if c.isLower then
      match span2 id_char rest with
      | (r, rest2) => some (String.mk (c :: r), rest2)
    else none
  | [] => none

/-- `(?P<reflike>[^ ]+)` -/
def match_reflike (cs : List Char) : Option (String × List Char) :=
  match span2 (fun c => !(c == ' ')) cs with
  | (r, rest2) => if r.isEmpty then none else some (String.mk r, rest2)

/-- One attempt of the full alternation at the current position, in the
order the alternatives appear in the source regex. -/
def match_at (cs : List Char) : Option (String × String × List Char) :=
  match match_label cs with
  | some (v, r) => some ("label", v, r)
  | none =>
    match match_multilabel cs with
    | some (v, r) => some ("multilabel", v, r)
    | none =>
      match match_directive cs with
      | some (v, r) => some ("directive", v, r)
      | none =>
        match match_string cs with
        | some (v, r) => some ("string", v, r)
        | none =>
          match match_comment cs with
          | some (v, r) => some ("comment", v, r)
          | none =>
            match match_reg cs with
            | some (v, r) => some ("reg", v, r)
            | none =>
              match match_multireg cs with
              | some (v, r) => some ("multireg", v, r)
              | none =>
                match match_id cs with
                | some (v, r) => some ("id", v, r)
                | none =>
                  match match_reflike cs with
                  | some (v, r) => some ("reflike", v, r)
                  | none => none

namespace P

/-- The `finditer` scan: yield a token per match (discarding a bare
comma in reflike position, as the source does), advance one character on
failure. -/
def lex_go : Nat → List Char → List Op
  | 0, _ => []
  | _, [] => []
  | Nat.succ fuel, c :: cs =>
    match match_at (c :: cs) with
    | some (k, v, rest) =>
      if k == "reflike" && v == "," then lex_go fuel rest
      else Op.mk k v [] 0 :: lex_go fuel rest
    | none => lex_go fuel cs

/-- `P._lexed_as_smali` -/
def lexed_as_smali (l : String) : List Op :=
  lex_go (l.data.length + 1) l.data

end P

/-! ## Parser (P.parsed_flat)

The parser splits the input on runs of newlines and processes the line
queue.  Exceptions escaping it are modelled by `PErr`: `indexError` is
the IndexError of `P._head_and_tail` on an empty token list (its
`except IndexError` handler returns `xs[0], None`, which re-evaluates
`xs[0]` and so re-raises the very error it catches — list slicing never
raises, so the handler is reachable only with an empty list), and
`assertionError` is the `assert t.p` on a parameter directive without
parameters. -/

inductive PErr where
  | indexError
  | assertionError
deriving DecidableEq

/-- Modelled from the spec: the parser's output ops.  `Op` subclasses
Annotation and Param (trueseeing.core.code.model, outside the provided
sources) carry the head's value and parameters plus the buffered block
of raw lines; the indexer distinguishes them by their kind tag. -/
inductive ParsedOp where
  | plain (op : Op)
  | anno (v : String) (p : List Op) (content : List String)
  | param (v : String) (p : List Op) (content : List String)

namespace P

/-- `P._parsed_as_op` composed with `P._head_and_tail`: the first token
becomes the head, the rest its parameter list (`if xs: x.p = xs` equals
setting `p := xs` because a fresh token's parameter list is empty).  An
empty token list raises IndexError (see `PErr`). -/
def parsed_as_op (l : String) : Except PErr Op :=
  match lexed_as_smali l with
  | [] => .error .indexError
  | x :: xs => .ok { x with p := xs }

/-- `P._parsed_as_annotation_content`: pop lines while the front of the
queue does not contain ".end annotation"; the first component is the
buffered content, the second the untouched remainder of the queue.
Queue exhaustion (IndexError) ends the loop silently. -/
def parsed_as_anno_content : List String → List String × List String
  | [] => ([], [])
  | x :: xs =>
    if contains_sub x ".end annotation" then ([], x :: xs)
    else (x :: (parsed_as_anno_content xs).1, (parsed_as_anno_content xs).2)

/-- `P._parsed_as_param_content`, identical with ".end param". -/
def parsed_as_param_content : List String → List String × List String
  | [] => ([], [])
  | x :: xs =>
    if contains_sub x ".end param" then ([], x :: xs)
    else (x :: (parsed_as_param_content xs).1, (parsed_as_param_content xs).2)

/-- The while-loop of `P.parsed_flat` over the line queue.  Falsy
(empty) lines are skipped; an annotation head buffers its block; a param
head asserts a non-empty parameter list, buffers its block when there is
exactly one parameter and degrades to a plain op otherwise; every other
head is yielded as a plain op. -/
def parsed_flat_q : List String → Except PErr (List ParsedOp)
  | [] => .ok []
  | l :: q =>
    if l = "" then parsed_flat_q q
    else
      match parsed_as_op l with
      | .error e => .error e
      | .ok t =>
        if t.eq "directive" "annotation" then
          match parsed_flat_q (parsed_as_anno_content q).2 with
          | .error e => .error e
          | .ok more => .ok (.anno t.v t.p (parsed_as_anno_content q).1 :: more)
        else if t.eq "directive" "param" then
          if t.p.isEmpty then .error .assertionError
          else if t.p.length = 1 then
            match parsed_flat_q (parsed_as_param_content q).2 with
            | .error e => .error e
            | .ok more => .ok (.param t.v t.p (parsed_as_param_content q).1 :: more)
          else
            match parsed_flat_q q with
            | .error e => .error e
            | .ok more => .ok (.plain t :: more)
        else
          match parsed_flat_q q with
          | .error e => .error e
          | .ok more => .ok (.plain t :: more)
termination_by q => q.length
decreasing_by
  all_goals simp only [List.length_cons]
  all_goals first
    | omega
    | (have h : ∀ r : List String, (parsed_as_anno_content r).2.length ≤ r.length := by
         intro r
         induction r with
         | nil => simp [parsed_as_anno_content]
         | cons x xs ih =>
           simp only [parsed_as_anno_content]
           split
           · simp
           · simpa using Nat.le_trans ih (Nat.le_succ _)
       exact Nat.lt_succ_of_le (h _))
    | (have h : ∀ r : List String, (parsed_as_param_content r).2.length ≤ r.length := by
         intro r
         induction r with
         | nil => simp [parsed_as_param_content]
         | cons x xs ih =>
           simp only [parsed_as_param_content]
           split
           · simp
           · simpa using Nat.le_trans ih (Nat.le_succ _)
       exact Nat.lt_succ_of_le (h _))

/-- Python's `re.split` on runs of newlines: pieces between maximal
newline runs, with an empty piece at an end that starts or finishes with
a newline.  Every step consumes at least one character, so fuel
`length + 1` in `split_lines` never runs out before the input does. -/
def split_nl : Nat → List Char → List Char → List String
  | 0, _, acc => [String.mk acc.reverse]
  | _, [], acc => [String.mk acc.reverse]
  | Nat.succ fuel, '\n' :: rest, acc =>
    String.mk acc.reverse :: split_nl fuel (rest.dropWhile (fun c => c == '\n')) []
  | Nat.succ fuel, c :: rest, acc => split_nl fuel rest (c :: acc)

def split_lines (s : String) : List String := split_nl (s.data.length + 1) s.data []

/-- `P.parsed_flat` -/
def parsed_flat (s : String) : Except PErr (List ParsedOp) :=
  parsed_flat_q (split_lines s)

end P

/-! ## Indexer (SmaliAnalyzer.analyze)

The identifier-assigning core of the analysis loop: per file, walk the
parsed ops, drop line directives, skip annotation and param heads, emit
each retained head at index 0 followed by its parameters at indices 1..n,
then assign identifiers from the `base_id` counter, which is seeded at 1
before the file loop and carried across files.  The class-map, progress
reporting and storage calls do not touch identifiers and are not
modelled. -/

namespace SmaliAnalyzer

/-- The index-within-line assignment of `enumerate(tuple([op] + op.p))`. -/
def enum_idx (i : Nat) : List Op → List Op
  | [] => []
  | o :: rest => { o with idx := i } :: enum_idx (i + 1) rest

/-- The per-file filtering and flattening loop (parse.py lines 46-54). -/
def expand_parsed : List ParsedOp → List Op
  | [] => []
  | .anno _ _ _ :: rest => expand_parsed rest
  | .param _ _ _ :: rest => expand_parsed rest
  | .plain o :: rest =>
    if o.eq "directive" "line" then expand_parsed rest
    else enum_idx 0 (o :: o.p) ++ expand_parsed rest

/-- The identifier loop over one file's batch: `t._id = base_id;
base_id += 1`. -/
def assign_ids_file : Nat → List Op → List (Op × Nat)
  | _, [] => []
  | base, o :: rest => (o, base) :: assign_ids_file (base + 1) rest

/-- Identifier assignment across files, carrying the counter. -/
def assign_ids : Nat → List (List Op) → List (List (Op × Nat))
  | _, [] => []
  | base, f :: fs => assign_ids_file base f :: assign_ids (base + f.length) fs

/-- `SmaliAnalyzer.analyze` restricted to its op/identifier behaviour:
parse every enumerated smali file, expand, and assign identifiers from
the counter seeded at 1.  A parse error propagates (the source has no
handler for it). -/
def analyze (files : List String) : Except PErr (List (List (Op × Nat))) :=
  match files.mapM P.parsed_flat with
  | .error e => .error e
  | .ok parsed => .ok (assign_ids 1 (parsed.map expand_parsed))

/-- A two-file input exercising identifier assignment: a class header
with parameters, a dropped line directive, and a second file. -/
def demo_files : List String :=
  [".class public La;\n.line 5\nnop", "return-void"]

/-- The batches the analyzer persists for `demo_files`. -/
def demo_batches : List (List (Op × Nat)) :=
  match analyze demo_files with
  | .ok bs => bs
  | .error _ => []

end SmaliAnalyzer

/-! ## Console reporting (report.py: ConsoleNoter.formatted) -/

/-- Modelled from the spec: `noneif` (trueseeing.core.tools, outside the
provided sources) substitutes the default for a missing value. -/
def noneif {α : Type} (x : Option α) (d : α) : α :=
  match x with
  | some v => v
  | none => d

/-- Modelled from the spec: the fields of an `Issue`
(trueseeing.core.issue, outside the provided sources) that
`ConsoleNoter.formatted` reads.  `severity` stands for the value of
`issue.severity()` (derived externally from the CVSS vector) and
`description` for `issue.brief_description()`; rows and columns are
natural numbers. -/
structure Issue where
  detector_id : String
  confidence : String
  source : Option String := none
  row : Option Nat := none
  col : Option Nat := none
  severity : String
  description : String

namespace ConsoleNoter

/-- `ConsoleNoter.formatted`: the format string evaluated left to right,
with `noneif` substitutions exactly as in the source. -/
def formatted (i : Issue) : String :=
  noneif i.source "(global)" ++ ":" ++ toString (noneif i.row 0) ++ ":" ++
    toString (noneif i.col 0) ++ ":" ++ i.severity ++ "\x7b" ++ i.confidence ++
    "\x7d:" ++ i.description ++ " [-W" ++ i.detector_id ++ "]"

end ConsoleNoter

/-- Modelled from the spec: the claimed console line, built from the
claim's own wording — source, row and col with their defaults, then
severity, braced confidence, description and the warning flag. -/
def spec_console_line (i : Issue) : String :=
  i.source.getD "(global)" ++ ":" ++ toString (i.row.getD 0) ++ ":" ++
    toString (i.col.getD 0) ++ ":" ++ i.severity ++ "\x7b" ++ i.confidence ++
    "\x7d:" ++ i.description ++ " [-W" ++ i.detector_id ++ "]"

/-! ## SecurityFilePermissionDetector (security.py lines 25-43) -/

namespace SecurityFilePermissionDetector

/-- Outcome of one openFileOutput call site in `detect`: skipped, one
raised issue, or an uncaught exception (only NoSuchValueError has a
handler). -/
inductive FPOutcome where
  | noIssue
  | raised (confidence info1 : String)
  | keyError (key : Nat)
  | valueError
deriving DecidableEq

/-- The body of the site loop.  `solved_arg1` is the result of
`DataFlows.solved_constant_data_in_invocation(store, cl, 1)`; `none`
models its NoSuchValueError.  The mode value is `int(·, 16)`; when
`target_val & 3` is non-zero the issue's info1 is the dictionary lookup
on `target_val` itself, which raises KeyError for every value other
than 1 and 2. -/
def detect (excluded : Bool) (solved_arg1 : Option String) : FPOutcome :=
  if excluded then .noIssue
  else
    match solved_arg1 with
    | none => .noIssue
    | some s =>
      match parse_hex s with
      | none => .valueError
      | some v =>
        if v &&& 3 ≠ 0 then
          if v = 1 then .raised "certain" "MODE_WORLD_READABLE"
          else if v = 2 then .raised "certain" "MODE_WORLD_WRITEABLE"
          else .keyError v
        else .noIssue

end SecurityFilePermissionDetector

/-! ## SecurityInsecureWebViewDetector, Javascript-interface part
(security.py lines 312-339) -/

namespace SecurityInsecureWebViewDetector

/-- One setJavaScriptEnabled invocation with the data the loop body
reads: its exclusion flag, the solver's result on its argument 0
(`none` models NoSuchValueError), and, for every addJavascriptInterface
invocation found in the same class over all target patterns, the
solver's result on that invocation's argument 0. -/
structure JsEnabledSite where
  excluded : Bool
  solved_enabled : Option String
  add_js_sites : List (Option String)

/-- The inner try of the loop: a resolved non-empty constant raises at
confidence firm, NoSuchValueError raises at tentative, and a resolved
empty string raises nothing (the `if` is string truthiness). -/
def js_if_confidence : Option String → Option String
  | some s => if s = "" then none else some "firm"
  | none => some "tentative"

/-- The Javascript-interface segment of `detect`: gated on
`get_min_sdk_version() <= 16`; for each non-excluded site whose
setJavaScriptEnabled argument resolves to a truthy (non-empty) string,
raise per addJavascriptInterface invocation.  Returns the confidences of
the raised issues in emission order. -/
def detect_js (min_sdk : Int) (sites : List JsEnabledSite) : List String :=
  if min_sdk ≤ 16 then
    sites.flatMap (fun p =>
      if p.excluded then []
      else
        match p.solved_enabled with
        | none => []
        | some s => if s = "" then [] else p.add_js_sites.filterMap js_if_confidence)
  else []

end SecurityInsecureWebViewDetector

/-! ## SecurityInsecureRootedDetector (security.py lines 632-663) -/

namespace SecurityInsecureRootedDetector

/-- `re.search(r'Sup|su|xbin|sbin|root', s)` — none of the alternatives
uses a metacharacter, so the search is a substring disjunction. -/
def path_hit (s : String) : Bool :=
  contains_sub s "Sup" || contains_sub s "su" || contains_sub s "xbin" ||
    contains_sub s "sbin" || contains_sub s "root"

/-- The decision tail of `detect` (lines 656-663).  `found` holds the
absolute-path strings extracted from const-strings and string resources,
`attestations_qns` the qualified names of SafetyNet attest invocations
with an adjacent verdict constant in the same class; Python's sets are
modelled as lists of their elements.  Issues are (summary, info1)
pairs. -/
def detect (found attestations_qns : List String) : List (String × String) :=
  let path_based := found.filter path_hit
  if path_based ≠ [] ∧ attestations_qns = [] then
    [("manual root detections without remote attestations",
      String.intercalate "," path_based)]
  else if attestations_qns ≠ [] ∧ path_based = [] then
    [("remote attestations without manual root detections",
      String.intercalate "," attestations_qns)]
  else []

end SecurityInsecureRootedDetector

/-! ## LayoutSizeGuesser (security.py lines 132-201) -/

/-- A layout element: its attribute map and its parent (`getparent`). -/
inductive Element where
  | mk (attrs : List (String × String)) (parent : Option Element)

def Element.attrs : Element → List (String × String)
  | .mk a _ => a

/-- The lxml attribute-key namespace prefix used by the guesser. -/
def xmlns_android : String :=
  "\x7bhttp://schemas.android.com/apk/res/android\x7d"

namespace LayoutSizeGuesser

/-- The screen-bucket table, bit-exact from the source. -/
def table : List (String × (ℚ × ℚ)) :=
  [("small", (320, 426)), ("normal", (320, 470)),
   ("large", (480, 640)), ("xlarge", (720, 960))]

/-- `_width_of`: attribute lookup, `none` models the KeyError. -/
def width_of (e : Element) : Option String :=
  e.attrs.lookup (xmlns_android ++ "layout_width")

/-- `_height_of` -/
def height_of (e : Element) : Option String :=
  e.attrs.lookup (xmlns_android ++ "layout_height")

/-- `_is_bound` -/
def is_bound (x : String) : Bool :=
  !(x == "fill_parent" || x == "match_parent" || x == "wrap_content")

/-- `re.sub(r'di?p$', '', x)`: remove a trailing "dip" or "dp". -/
def strip_dp (x : String) : String :=
  if ends_with x "dip" then String.mk (x.data.take (x.data.length - 3))
  else if ends_with x "dp" then String.mk (x.data.take (x.data.length - 2))
  else x

/-- `re.sub(r'[^0-9-]', '', x)` -/
def keep_digits (x : String) : String :=
  String.mk (x.data.filter (fun c => c.isDigit || c == '-'))

def digits_to_nat (ds : List Char) : Nat :=
  ds.foldl (fun n c => 10 * n + (c.toNat - 48)) 0

def sign_apply (neg : Bool) (q : ℚ) : ℚ :=
  if neg then -q else q

/-- Models Python `float()` on the plain decimal literals that occur in
layout dimensions (optional sign, digits, optional fraction); `none`
models ValueError.  Exponents, inf/nan and underscores are outside the
modelled scope. -/
def float_of (s : String) : Option ℚ :=
  match s.data with
  | [] => none
  | cs =>
    let sg : Bool × List Char :=
      match cs with
      | '-' :: r => (true, r)
      | '+' :: r => (false, r)
      | r => (false, r)
    let ip := sg.2.takeWhile Char.isDigit
    let rest := sg.2.dropWhile Char.isDigit
    match rest with
    | [] => if ip.isEmpty then none else some (sign_apply sg.1 (digits_to_nat ip : ℚ))
    | '.' :: frac =>
      if frac.all Char.isDigit then
        if ip.isEmpty ∧ frac.isEmpty then none
        else
          some (sign_apply sg.1
            ((digits_to_nat ip : ℚ) + (digits_to_nat frac : ℚ) / (10 : ℚ) ^ frac.length))
      else none
    | _ => none

/-- `_guessed_dp`: a bound dimension is parsed (stripping the dp/dip
suffix, falling back to the digit filter, then to 0) and divided by the
bucket axis; an unbound dimension yields the bucket axis itself. -/
def guessed_dp (x : String) (dp : ℚ) : ℚ :=
  if is_bound x then
    match float_of (strip_dp x) with
    | some q => q / dp
    | none =>
      match float_of (keep_digits x) with
      | some q => q / dp
      | none => 0
  else dp

/-- `_dps_from_modifiers`: the first table key among the modifiers (the
source draws from a Python set, whose iteration order is unspecified;
list order coincides with it whenever at most one key occurs), default
large, axes swapped on the land modifier. -/
def dps_from_modifiers (mods : List String) : ℚ × ℚ :=
  let xy :=
    match mods.filter (fun m => (table.lookup m).isSome) with
    | [] => (480, 640)
    | k :: _ => (table.lookup k).getD (480, 640)
  if mods.contains "land" then (xy.2, xy.1) else xy

/-- `_modifiers_in`: the hyphen-separated parts of the first path
component containing "layout" (os.sep is the slash); `none` models the
IndexError when no component qualifies.  The source wraps the parts in a
Python set; membership tests are order-insensitive, so a list keeps the
same observable behaviour (see `dps_from_modifiers`). -/
def modifiers_in (path : String) : Option (List String) :=
  match (split_str path '/').filter (fun c => contains_sub c "layout") with
  | [] => none
  | c :: _ => some (split_str c '-')

/-- `_self_and_containers_of`: yields the element itself; the recursive
call on the parent creates a generator that is never iterated (the
source lacks a yield from), so no ancestor is produced.  The discarded
application mirrors that dead call. -/
def self_and_containers_of : Element → List Element
  | .mk attrs none => [Element.mk attrs none]
  | .mk attrs (some par) =>
    Element.mk attrs (some par) ::
      (fun (_discarded : List Element) => ([] : List Element))
        (self_and_containers_of par)

/-- The element loop of `guessed_size`: a missing width or height
attribute returns 0 (both KeyError sub-branches do), a bound dimension
returns the product of the guessed dimensions, otherwise the loop
continues and its for-else returns 1. -/
def guessed_loop : List Element → ℚ × ℚ → ℚ
  | [], _ => 1
  | e :: es, dps =>
    match width_of e, height_of e with
    | some w, some h =>
      if is_bound w || is_bound h then guessed_dp w dps.1 * guessed_dp h dps.2
      else guessed_loop es dps
    | _, _ => 0

/-- `guessed_size`; `none` models the IndexError of `_modifiers_in` on a
path with no layout component. -/
def guessed_size (t : Element) (path : String) : Option ℚ :=
  match modifiers_in path with
  | none => none
  | some mods => some (guessed_loop (self_and_containers_of t) (dps_from_modifiers mods))

end LayoutSizeGuesser

/-- The WebView element of the seed scenario: width 480dp, height 360dp. -/
def web_view_elem : Element :=
  .mk [(xmlns_android ++ "layout_width", "480dp"),
       (xmlns_android ++ "layout_height", "360dp")] none

/-! ## Claim theorems -/

/-- C1.  The spec claims that every openFileOutput mode value with bit 1
or bit 2 set yields exactly one certain issue with info1 in
MODE_WORLD_READABLE / MODE_WORLD_WRITEABLE, explicitly including the
combined value 3.  The code raises those issues for the values 1 and 2,
but for 3 (both bits set, `target_val & 3` non-zero) the dictionary
lookup `{1: ..., 2: ...}[3]` raises an uncaught KeyError: only
NoSuchValueError is handled. -/
theorem C1_world_mode_keyerror :
    SecurityFilePermissionDetector.detect false (some "0x3") =
      SecurityFilePermissionDetector.FPOutcome.keyError 3
    ∧ SecurityFilePermissionDetector.detect false (some "0x1") =
      SecurityFilePermissionDetector.FPOutcome.raised "certain" "MODE_WORLD_READABLE"
    ∧ SecurityFilePermissionDetector.detect false (some "0x2") =
      SecurityFilePermissionDetector.FPOutcome.raised "certain" "MODE_WORLD_WRITEABLE"
    ∧ ((3 : Nat) &&& 3 ≠ 0) :=
  ⟨rfl, rfl, rfl, by decide⟩

/-- C2.  The spec claims the lexer is total over any non-empty line and
the parser yields one head op per non-empty line, explicitly including
lines of spaces and lines whose only token is a discarded bare comma.
On such lines the lexer yields no token at all (the reflike catch-all
matches only non-space runs, and a lone comma is discarded), and
`P._head_and_tail([])` raises IndexError — its `except` handler
re-evaluates `xs[0]` and re-raises — so `parsed_flat` aborts instead of
yielding an op. -/
theorem C2_parser_not_total :
    P.parsed_flat "foo\n \nbar" = .error .indexError
    ∧ P.parsed_flat_q [","] = .error .indexError
    ∧ P.lexed_as_smali " " = []
    ∧ P.lexed_as_smali "," = [] := by
  refine ⟨?_, ?_, rfl, rfl⟩
  · have h2 : P.parsed_flat_q [" ", "bar"] = .error .indexError := by
      rw [P.parsed_flat_q]
      simp +decide [show P.parsed_as_op " " = .error .indexError from rfl]
    have h3 : P.parsed_flat_q ["foo", " ", "bar"] = .error .indexError := by
      rw [P.parsed_flat_q]
      simp +decide [show P.parsed_as_op "foo" = .ok (Op.mk "id" "foo" [] 0) from rfl,
        Op.eq, h2]
    show P.parsed_flat_q (P.split_lines "foo\n \nbar") = _
    rw [show P.split_lines "foo\n \nbar" = ["foo", " ", "bar"] from rfl]
    exact h3
  · rw [P.parsed_flat_q]
    simp +decide [show P.parsed_as_op "," = .error .indexError from rfl]

/-- C4.  The rooted-device detector raises exactly one issue when
exactly one of the two evidence sets (path-based probe strings matching
the root pattern, SafetyNet attestation sites) is non-empty, and none
when both or neither are present. -/
theorem C4_rooted_exactly_one :
    ∀ found attestations_qns : List String,
      (SecurityInsecureRootedDetector.detect found attestations_qns).length =
        if (found.filter SecurityInsecureRootedDetector.path_hit ≠ [] ∧ attestations_qns = [])
            ∨ (attestations_qns ≠ [] ∧ found.filter SecurityInsecureRootedDetector.path_hit = [])
        then 1 else 0 := by
  intro found atts
  simp only [SecurityInsecureRootedDetector.detect]
  by_cases hA : found.filter SecurityInsecureRootedDetector.path_hit ≠ [] ∧ atts = []
  · rw [if_pos hA, if_pos (Or.inl hA)]
    rfl
  · rw [if_neg hA]
    by_cases hB : atts ≠ [] ∧ found.filter SecurityInsecureRootedDetector.path_hit = []
    · rw [if_pos hB, if_pos (Or.inr hB)]
      rfl
    · rw [if_neg hB, if_neg ?hnot]
      case hnot => rintro (h | h); exacts [hA h, hB h]
      rfl

/-- C6 counterexample.  The claim says the Javascript-interface issue is
raised only when setJavaScriptEnabled is proven to pass true.  The code
tests string truthiness of the solved constant: at min-SDK 16, a
setJavaScriptEnabled site whose argument solves to "0x0" — the hex
string denoting 0, i.e. false — still triggers raising (here one
tentative issue for an addJavascriptInterface site whose own argument
does not resolve). -/
theorem C6_counterexample :
    SecurityInsecureWebViewDetector.detect_js 16
        [{ excluded := false, solved_enabled := some "0x0", add_js_sites := [none] }] =
      ["tentative"]
    ∧ parse_hex "0x0" = some 0 :=
  ⟨rfl, rfl⟩

/-- C6 amended.  The Javascript-interface part of the detector raises
an issue if and only if the declared min-SDK is at most 16 and some
non-excluded setJavaScriptEnabled site's argument 0 resolves to a
non-empty constant string (true or not), and some addJavascriptInterface
invocation in its class either fails to resolve (tentative) or resolves
to a non-empty constant (firm). -/
theorem C6_raise_condition :
    ∀ (min_sdk : Int) (sites : List SecurityInsecureWebViewDetector.JsEnabledSite),
      SecurityInsecureWebViewDetector.detect_js min_sdk sites ≠ [] ↔
        (min_sdk ≤ 16 ∧ ∃ p ∈ sites, p.excluded = false ∧
          ∃ s, p.solved_enabled = some s ∧ s ≠ "" ∧
            ∃ a ∈ p.add_js_sites, (a = none ∨ ∃ v, a = some v ∧ v ≠ "")) := by
  intro m sites
  unfold SecurityInsecureWebViewDetector.detect_js
  split_ifs with hm
  · constructor
    · intro hne0
      have hne1 : ¬ ∀ p ∈ sites, (fun p : SecurityInsecureWebViewDetector.JsEnabledSite =>
          if p.excluded then []
          else
            match p.solved_enabled with
            | none => []
            | some s => if s = "" then []
                        else p.add_js_sites.filterMap
                          SecurityInsecureWebViewDetector.js_if_confidence) p = [] := by
        rw [← List.flatMap_eq_nil_iff]
        exact hne0
      push_neg at hne1
      obtain ⟨p, hp, hne⟩ := hne1
      refine ⟨hm, p, hp, ?_⟩
      by_cases he : p.excluded
      · simp [he] at hne
      · cases hs : p.solved_enabled with
        | none => simp [he, hs] at hne
        | some s =>
          by_cases hss : s = ""
          · simp [he, hs, hss] at hne
          · refine ⟨by simpa using he, s, by simp [hs], hss, ?_⟩
            simp only [he, hs, hss, Bool.false_eq_true, if_false] at hne
            have hne2 : ¬ ∀ a ∈ p.add_js_sites,
                SecurityInsecureWebViewDetector.js_if_confidence a = none := by
              rw [← List.filterMap_eq_nil_iff]
              exact hne
            push_neg at hne2
            obtain ⟨a, ha, hj⟩ := hne2
            refine ⟨a, ha, ?_⟩
            cases a with
            | none => exact Or.inl rfl
            | some v =>
              refine Or.inr ⟨v, rfl, ?_⟩
              intro hveq
              exact hj (by simp [SecurityInsecureWebViewDetector.js_if_confidence, hveq])
    · rintro ⟨-, p, hp, he, s, hs, hss, a, ha, hcase⟩
      intro hflat
      rw [List.flatMap_eq_nil_iff] at hflat
      have hkey := hflat p hp
      simp only [he, hs, hss, Bool.false_eq_true, if_false] at hkey
      rw [List.filterMap_eq_nil_iff] at hkey
      have := hkey a ha
      rcases hcase with rfl | ⟨v, rfl, hv⟩
      · simp [SecurityInsecureWebViewDetector.js_if_confidence] at this
      · simp [SecurityInsecureWebViewDetector.js_if_confidence, hv] at this
  · simp [hm]

/-- C8.  The console line is exactly
source:row:col:severity(confidence):description dash-W-detector-id, with
"(global)" substituted for a missing source and 0 for missing row or
column; the first component proves the general shape against a
definition drawn from the claim's wording, the second shows the
substitutions on a fully missing location. -/
theorem C8_console_format :
    (∀ i : Issue, ConsoleNoter.formatted i = spec_console_line i)
    ∧ ConsoleNoter.formatted
        { detector_id := "security-log", confidence := "tentative",
          severity := "medium", description := "detected logging" } =
      "(global):0:0:medium\x7btentative\x7d:detected logging [-Wsecurity-log]" := by
  constructor
  · intro i
    rcases i with ⟨d, c, s, r, co, sev, desc⟩
    cases s <;> cases r <;> cases co <;> rfl
  · rfl

/-- Identifier projection of one file's batch: consecutive from the
base. -/
theorem sa_assign_file_snd :
    ∀ (b : Nat) (f : List Op),
      (SmaliAnalyzer.assign_ids_file b f).map Prod.snd = List.range' b f.length := by
  intro b f
  induction f generalizing b with
  | nil => rfl
  | cons o rest ih =>
    simp only [SmaliAnalyzer.assign_ids_file, List.map_cons, List.length_cons,
      List.range'_succ, ih]

theorem sa_assign_file_len :
    ∀ (b : Nat) (f : List Op),
      (SmaliAnalyzer.assign_ids_file b f).length = f.length := by
  intro b f
  induction f generalizing b with
  | nil => rfl
  | cons o rest ih => simp [SmaliAnalyzer.assign_ids_file, ih]

theorem sa_assign_lengths :
    ∀ (b : Nat) (fs : List (List Op)),
      (SmaliAnalyzer.assign_ids b fs).map List.length = fs.map List.length := by
  intro b fs
  induction fs generalizing b with
  | nil => rfl
  | cons f fs ih =>
    simp [SmaliAnalyzer.assign_ids, sa_assign_file_len, ih]

/-- Identifier projection across files: one consecutive range from the
base, never reset at a file boundary. -/
theorem sa_assign_flatten_snd :
    ∀ (b : Nat) (fs : List (List Op)),
      (SmaliAnalyzer.assign_ids b fs).flatten.map Prod.snd =
        List.range' b (fs.map List.length).sum := by
  intro b fs
  induction fs generalizing b with
  | nil => rfl
  | cons f fs ih =>
    simp only [SmaliAnalyzer.assign_ids, List.flatten_cons, List.map_append,
      sa_assign_file_snd, ih, List.map_cons, List.sum_cons]
    have h := List.range'_append b f.length ((fs.map List.length).sum) 1
    simp only [one_mul] at h
    rw [h, Nat.add_comm]

/-- C3.  Whenever the analyzer completes over a sequence of files, the
identifiers of the persisted ops, read in emission order across all
files, are exactly the consecutive integers 1, 2, 3, ...: dense, unique,
strictly monotonic, seeded at 1 and never reset between files. -/
theorem C3_dense_ids (files : List String) (batches : List (List (Op × Nat)))
    (h : SmaliAnalyzer.analyze files = .ok batches) :
    batches.flatten.map Prod.snd = List.range' 1 batches.flatten.length := by
  unfold SmaliAnalyzer.analyze at h
  cases hm : files.mapM P.parsed_flat with
  | error e => rw [hm] at h; exact absurd h (by simp)
  | ok parsed =>
    rw [hm] at h
    injection h with h
    subst h
    rw [sa_assign_flatten_snd, List.length_flatten, sa_assign_lengths]

/-- C3 witness: the analyzer on the two demo files assigns exactly the
identifiers 1..5. -/
theorem C3_dense_ids_witness :
    SmaliAnalyzer.analyze SmaliAnalyzer.demo_files = .ok SmaliAnalyzer.demo_batches
    ∧ SmaliAnalyzer.demo_batches.flatten.map Prod.snd = List.range' 1 5 := by
  have e0 : P.parsed_flat_q [] = .ok [] := by rw [P.parsed_flat_q]
  have e3 : P.parsed_flat_q ["nop"] = .ok [.plain (Op.mk "id" "nop" [] 0)] := by
    rw [P.parsed_flat_q]
    simp +decide [show P.parsed_as_op "nop" = .ok (Op.mk "id" "nop" [] 0) from rfl, Op.eq, e0]
  have e2 : P.parsed_flat_q [".line 5", "nop"] =
      .ok [.plain (Op.mk "directive" "line" [Op.mk "reflike" "5" [] 0] 0),
           .plain (Op.mk "id" "nop" [] 0)] := by
    rw [P.parsed_flat_q]
    simp +decide [show P.parsed_as_op ".line 5" =
        .ok (Op.mk "directive" "line" [Op.mk "reflike" "5" [] 0] 0) from rfl, Op.eq, e3]
  have e1 : P.parsed_flat_q [".class public La;", ".line 5", "nop"] =
      .ok [.plain (Op.mk "directive" "class"
              [Op.mk "id" "public" [] 0, Op.mk "reflike" "La;" [] 0] 0),
           .plain (Op.mk "directive" "line" [Op.mk "reflike" "5" [] 0] 0),
           .plain (Op.mk "id" "nop" [] 0)] := by
    rw [P.parsed_flat_q]
    simp +decide [show P.parsed_as_op ".class public La;" =
        .ok (Op.mk "directive" "class"
          [Op.mk "id" "public" [] 0, Op.mk "reflike" "La;" [] 0] 0) from rfl, Op.eq, e2]
  have hf1 : P.parsed_flat ".class public La;\n.line 5\nnop" =
      .ok [.plain (Op.mk "directive" "class"
              [Op.mk "id" "public" [] 0, Op.mk "reflike" "La;" [] 0] 0),
           .plain (Op.mk "directive" "line" [Op.mk "reflike" "5" [] 0] 0),
           .plain (Op.mk "id" "nop" [] 0)] := by
    show P.parsed_flat_q (P.split_lines ".class public La;\n.line 5\nnop") = _
    rw [show P.split_lines ".class public La;\n.line 5\nnop" =
      [".class public La;", ".line 5", "nop"] from rfl]
    exact e1
  have e4 : P.parsed_flat_q ["return-void"] =
      .ok [.plain (Op.mk "id" "return-void" [] 0)] := by
    rw [P.parsed_flat_q]
    simp +decide [show P.parsed_as_op "return-void" =
      .ok (Op.mk "id" "return-void" [] 0) from rfl, Op.eq, e0]
  have hf2 : P.parsed_flat "return-void" = .ok [.plain (Op.mk "id" "return-void" [] 0)] := by
    show P.parsed_flat_q (P.split_lines "return-void") = _
    rw [show P.split_lines "return-void" = ["return-void"] from rfl]
    exact e4
  have hm : SmaliAnalyzer.demo_files.mapM P.parsed_flat =
      .ok [[.plain (Op.mk "directive" "class"
              [Op.mk "id" "public" [] 0, Op.mk "reflike" "La;" [] 0] 0),
            .plain (Op.mk "directive" "line" [Op.mk "reflike" "5" [] 0] 0),
            .plain (Op.mk "id" "nop" [] 0)],
           [.plain (Op.mk "id" "return-void" [] 0)]] := by
    show List.mapM P.parsed_flat [".class public La;\n.line 5\nnop", "return-void"] = _
    simp only [List.mapM, List.mapM.loop, hf1, hf2]
    rfl
  have ha : SmaliAnalyzer.analyze SmaliAnalyzer.demo_files =
      .ok (SmaliAnalyzer.assign_ids 1
        (([[.plain (Op.mk "directive" "class"
               [Op.mk "id" "public" [] 0, Op.mk "reflike" "La;" [] 0] 0),
             .plain (Op.mk "directive" "line" [Op.mk "reflike" "5" [] 0] 0),
             .plain (Op.mk "id" "nop" [] 0)],
            [.plain (Op.mk "id" "return-void" [] 0)]] :
          List (List ParsedOp)).map SmaliAnalyzer.expand_parsed)) := by
    unfold SmaliAnalyzer.analyze
    rw [hm]
  have hdb : SmaliAnalyzer.demo_batches =
      SmaliAnalyzer.assign_ids 1
        (([[.plain (Op.mk "directive" "class"
               [Op.mk "id" "public" [] 0, Op.mk "reflike" "La;" [] 0] 0),
             .plain (Op.mk "directive" "line" [Op.mk "reflike" "5" [] 0] 0),
             .plain (Op.mk "id" "nop" [] 0)],
            [.plain (Op.mk "id" "return-void" [] 0)]] :
          List (List ParsedOp)).map SmaliAnalyzer.expand_parsed) := by
    unfold SmaliAnalyzer.demo_batches
    rw [ha]
  have hok : SmaliAnalyzer.analyze SmaliAnalyzer.demo_files =
      .ok SmaliAnalyzer.demo_batches := by
    rw [hdb]; exact ha
  have h := C3_dense_ids _ _ hok
  have hlen : SmaliAnalyzer.demo_batches.flatten.length = 5 := by rw [hdb]; rfl
  rw [hlen] at h
  exact ⟨hok, h⟩

/-- Stripping the dp suffix from a string that ends in "dp" recovers the
string: the regex cannot see a "dip" ending there, because the
second-to-last character is the appended d, not an i. -/
theorem strip_dp_append_dp (s : String) :
    LayoutSizeGuesser.strip_dp (s ++ "dp") = s := by
  have hdata : (s ++ "dp").data = s.data ++ ['d', 'p'] := String.data_append s "dp"
  have h1 : ends_with (s ++ "dp") "dip" = false := by
    rw [Bool.eq_false_iff]
    intro hc
    unfold ends_with at hc
    rw [List.isSuffixOf_iff_suffix] at hc
    obtain ⟨t, ht⟩ := hc
    rw [hdata] at ht
    have ht2 := congrArg List.reverse ht
    simp only [List.reverse_append] at ht2
    rw [show (("dip".data : List Char).reverse) = ['p', 'i', 'd'] from rfl] at ht2
    rw [show ((['d', 'p'] : List Char).reverse) = ['p', 'd'] from rfl] at ht2
    simp only [List.cons_append, List.nil_append] at ht2
    injection ht2 with ha hb
    injection hb with hb _
    exact absurd hb (by decide)
  have h2 : ends_with (s ++ "dp") "dp" = true := by
    unfold ends_with
    rw [List.isSuffixOf_iff_suffix]
    exact ⟨s.data, hdata.symm⟩
  unfold LayoutSizeGuesser.strip_dp
  rw [h1, h2]
  simp only [Bool.false_eq_true, if_false, if_true]
  rw [hdata]
  have hlen : (s.data ++ ['d', 'p']).length - 2 = s.data.length := by
    simp [List.length_append]
  rw [hlen, List.take_left]

/-- Stripping the suffix from a string ending in "dip" recovers the
string. -/
theorem strip_dp_append_dip (s : String) :
    LayoutSizeGuesser.strip_dp (s ++ "dip") = s := by
  have hdata : (s ++ "dip").data = s.data ++ ['d', 'i', 'p'] := String.data_append s "dip"
  have h1 : ends_with (s ++ "dip") "dip" = true := by
    unfold ends_with
    rw [List.isSuffixOf_iff_suffix]
    exact ⟨s.data, hdata.symm⟩
  unfold LayoutSizeGuesser.strip_dp
  rw [h1]
  simp only [if_true]
  rw [hdata]
  have hlen : (s.data ++ ['d', 'i', 'p']).length - 3 = s.data.length := by
    simp [List.length_append]
  rw [hlen, List.take_left]

/-- A dimension string ending in the letter p is never one of the
unbound keywords, which all end in t. -/
theorem is_bound_of_getLast_p (x : String) (h : x.data.getLast? = some 'p') :
    LayoutSizeGuesser.is_bound x = true := by
  unfold LayoutSizeGuesser.is_bound
  have h1 : (x == "fill_parent") = false := by
    rw [beq_eq_false_iff_ne]
    intro he
    rw [he] at h
    exact absurd h (by decide)
  have h2 : (x == "match_parent") = false := by
    rw [beq_eq_false_iff_ne]
    intro he
    rw [he] at h
    exact absurd h (by decide)
  have h3 : (x == "wrap_content") = false := by
    rw [beq_eq_false_iff_ne]
    intro he
    rw [he] at h
    exact absurd h (by decide)
  simp [h1, h2, h3]

/-- C5.  The size guesser follows the bucket table bit-exactly: the four
buckets, the default of large, the axis swap on land; the unbound
keywords count as the full bucket axis; a dimension with a dp or dip
suffix is its parsed value divided by the bucket axis; and the seed
scenario — a 480dp by 360dp WebView in a layout-large-land path — is
guessed at (480/640)*(360/480) = 0.5625 = 9/16. -/
theorem C5_layout_size_guesser :
    (LayoutSizeGuesser.dps_from_modifiers ["layout", "small"] = (320, 426)
      ∧ LayoutSizeGuesser.dps_from_modifiers ["layout", "normal"] = (320, 470)
      ∧ LayoutSizeGuesser.dps_from_modifiers ["layout", "large"] = (480, 640)
      ∧ LayoutSizeGuesser.dps_from_modifiers ["layout", "xlarge"] = (720, 960)
      ∧ LayoutSizeGuesser.dps_from_modifiers ["layout"] = (480, 640)
      ∧ LayoutSizeGuesser.dps_from_modifiers ["layout", "large", "land"] = (640, 480))
    ∧ (∀ d : ℚ, LayoutSizeGuesser.guessed_dp "fill_parent" d = d
        ∧ LayoutSizeGuesser.guessed_dp "match_parent" d = d
        ∧ LayoutSizeGuesser.guessed_dp "wrap_content" d = d)
    ∧ (∀ (s : String) (q d : ℚ), LayoutSizeGuesser.float_of s = some q →
        LayoutSizeGuesser.guessed_dp (s ++ "dp") d = q / d)
    ∧ (∀ (s : String) (q d : ℚ), LayoutSizeGuesser.float_of s = some q →
        LayoutSizeGuesser.guessed_dp (s ++ "dip") d = q / d)
    ∧ LayoutSizeGuesser.modifiers_in "res/layout-large-land/main.xml" =
        some ["layout", "large", "land"]
    ∧ LayoutSizeGuesser.guessed_size web_view_elem "res/layout-large-land/main.xml" =
        some (9 / 16) := by
  refine ⟨⟨rfl, rfl, rfl, rfl, rfl, rfl⟩, fun d => ⟨rfl, rfl, rfl⟩, ?_, ?_, rfl, ?_⟩
  · intro s q d hf
    have hb : LayoutSizeGuesser.is_bound (s ++ "dp") = true := by
      refine is_bound_of_getLast_p _ ?_
      rw [String.data_append, List.getLast?_append]
      rfl
    simp only [LayoutSizeGuesser.guessed_dp, hb, if_true, strip_dp_append_dp, hf]
  · intro s q d hf
    have hb : LayoutSizeGuesser.is_bound (s ++ "dip") = true := by
      refine is_bound_of_getLast_p _ ?_
      rw [String.data_append, List.getLast?_append]
      rfl
    simp only [LayoutSizeGuesser.guessed_dp, hb, if_true, strip_dp_append_dip, hf]
  · have h : LayoutSizeGuesser.guessed_size web_view_elem "res/layout-large-land/main.xml" =
        some ((((480 : Nat) : ℚ)) / 640 * ((((360 : Nat) : ℚ)) / 480)) := rfl
    rw [h]
    norm_num

/-- C5 witness: the dp and dip division rules applied at 480dp over the
640-axis and 360dip over the 480-axis. -/
theorem C5_layout_size_guesser_witness :
    LayoutSizeGuesser.guessed_dp ("480" ++ "dp") 640 = ((480 : Nat) : ℚ) / 640
    ∧ LayoutSizeGuesser.guessed_dp ("360" ++ "dip") 480 = ((360 : Nat) : ℚ) / 480 :=
  ⟨C5_layout_size_guesser.2.2.1 "480" ((480 : Nat) : ℚ) 640 rfl,
   C5_layout_size_guesser.2.2.2.1 "360" ((360 : Nat) : ℚ) 480 rfl⟩

/-- Every element yields only itself: the recursive generator on the
parent is created and discarded. -/
theorem self_containers_single :
    ∀ e : Element, LayoutSizeGuesser.self_and_containers_of e = [e] := by
  intro e
  cases e with
  | mk attrs par => cases par <;> rfl

/-- C9.  The container walk yields exactly the element itself, and in
consequence the size guess depends only on the element's own attributes:
replacing the whole ancestor chain never changes the result. -/
theorem C9_first_parent_only :
    (∀ e : Element, LayoutSizeGuesser.self_and_containers_of e = [e])
    ∧ ∀ (attrs : List (String × String)) (p1 p2 : Option Element) (path : String),
        LayoutSizeGuesser.guessed_size (.mk attrs p1) path =
          LayoutSizeGuesser.guessed_size (.mk attrs p2) path := by
  refine ⟨self_containers_single, ?_⟩
  intro attrs p1 p2 path
  unfold LayoutSizeGuesser.guessed_size
  cases hm : LayoutSizeGuesser.modifiers_in path with
  | none => rfl
  | some mods =>
    simp only [self_containers_single]
    rfl

/-- The annotation-content loop is the span at the first line containing
the end marker. -/
theorem anno_content_span :
    ∀ q : List String,
      P.parsed_as_anno_content q =
        (q.takeWhile (fun s => !(contains_sub s ".end annotation")),
         q.dropWhile (fun s => !(contains_sub s ".end annotation"))) := by
  intro q
  induction q with
  | nil => rfl
  | cons x xs ih =>
    simp only [P.parsed_as_anno_content]
    cases hc : contains_sub x ".end annotation" with
    | true => simp [List.takeWhile_cons, List.dropWhile_cons, hc]
    | false => simp [List.takeWhile_cons, List.dropWhile_cons, hc, ih]

/-- The param-content loop is the span at the first line containing the
end marker. -/
theorem param_content_span :
    ∀ q : List String,
      P.parsed_as_param_content q =
        (q.takeWhile (fun s => !(contains_sub s ".end param")),
         q.dropWhile (fun s => !(contains_sub s ".end param"))) := by
  intro q
  induction q with
  | nil => rfl
  | cons x xs ih =>
    simp only [P.parsed_as_param_content]
    cases hc : contains_sub x ".end param" with
    | true => simp [List.takeWhile_cons, List.dropWhile_cons, hc]
    | false => simp [List.takeWhile_cons, List.dropWhile_cons, hc, ih]

/-- C7.  On an annotation head, the parser buffers the queue strictly up
to — but not including — the first line containing ".end annotation",
leaves that line at the front of the queue for the ordinary loop, and
yields a single Annotation op carrying exactly the buffer; when no such
line follows, the op carries the whole remainder and parsing completes
without error. -/
theorem C7_annotation_block (l : String) (rest : List String) (t : Op)
    (hne : l ≠ "") (hp : P.parsed_as_op l = .ok t)
    (ht : t.t = "directive") (hv : t.v = "annotation") :
    (P.parsed_flat_q (l :: rest) =
      (P.parsed_flat_q (rest.dropWhile (fun s => !(contains_sub s ".end annotation")))).map
        (fun more => ParsedOp.anno t.v t.p
          (rest.takeWhile (fun s => !(contains_sub s ".end annotation"))) :: more))
    ∧ ((∀ s ∈ rest, contains_sub s ".end annotation" = false) →
        P.parsed_flat_q (l :: rest) = .ok [ParsedOp.anno t.v t.p rest]) := by
  have heq : t.eq "directive" "annotation" = true := by simp [Op.eq, ht, hv]
  have h1 : P.parsed_flat_q (l :: rest) =
      (P.parsed_flat_q (rest.dropWhile (fun s => !(contains_sub s ".end annotation")))).map
        (fun more => ParsedOp.anno t.v t.p
          (rest.takeWhile (fun s => !(contains_sub s ".end annotation"))) :: more) := by
    rw [P.parsed_flat_q, if_neg hne, hp]
    simp only [heq, if_true]
    rw [anno_content_span rest]
    cases hpf : P.parsed_flat_q
        (rest.dropWhile (fun s => !(contains_sub s ".end annotation"))) <;>
      simp [hpf, Except.map]
  refine ⟨h1, fun hall => ?_⟩
  rw [h1]
  have htk : rest.takeWhile (fun s => !(contains_sub s ".end annotation")) = rest :=
    List.takeWhile_eq_self_iff.mpr (fun x hx => by simp [hall x hx])
  have hdr : rest.dropWhile (fun s => !(contains_sub s ".end annotation")) = [] :=
    List.dropWhile_eq_nil_iff.mpr (fun x hx => by simp [hall x hx])
  rw [htk, hdr]
  rw [show P.parsed_flat_q ([] : List String) = .ok [] from by rw [P.parsed_flat_q]]
  rfl

/-- C7 witness: an annotation block never terminated by an end marker
captures all remaining lines and parsing succeeds. -/
theorem C7_annotation_block_witness :
    P.parsed_flat_q [".annotation build Lfoo;", "abc", "def"] =
      .ok [ParsedOp.anno "annotation"
            [Op.mk "id" "build" [] 0, Op.mk "reflike" "Lfoo;" [] 0] ["abc", "def"]] :=
  (C7_annotation_block ".annotation build Lfoo;" ["abc", "def"]
      (Op.mk "directive" "annotation"
        [Op.mk "id" "build" [] 0, Op.mk "reflike" "Lfoo;" [] 0] 0)
      (by decide) rfl rfl rfl).2 (by decide)

/-- C10.  A param directive without parameters fails the `assert t.p`
and aborts parsing with an assertion failure; with exactly one parameter
a Param op carrying the buffered block is yielded; with two or more the
op is demoted to a plain op and the queue is untouched. -/
theorem C10_param_demotion (l : String) (q : List String) (t : Op)
    (hne : l ≠ "") (hp : P.parsed_as_op l = .ok t)
    (ht : t.t = "directive") (hv : t.v = "param") :
    (t.p = [] → P.parsed_flat_q (l :: q) = .error .assertionError)
    ∧ (t.p.length = 1 → P.parsed_flat_q (l :: q) =
        (P.parsed_flat_q (q.dropWhile (fun s => !(contains_sub s ".end param")))).map
          (fun more => ParsedOp.param t.v t.p
            (q.takeWhile (fun s => !(contains_sub s ".end param"))) :: more))
    ∧ (2 ≤ t.p.length → P.parsed_flat_q (l :: q) =
        (P.parsed_flat_q q).map (fun more => ParsedOp.plain t :: more)) := by
  have hanno : t.eq "directive" "annotation" = false := by
    simp [Op.eq, hv]
  have hparam : t.eq "directive" "param" = true := by
    simp [Op.eq, ht, hv]
  refine ⟨?_, ?_, ?_⟩
  · intro hp0
    rw [P.parsed_flat_q, if_neg hne, hp]
    simp only [hanno, hparam, Bool.false_eq_true, if_false, if_true]
    simp [hp0]
  · intro hl1
    rw [P.parsed_flat_q, if_neg hne, hp]
    simp only [hanno, hparam, Bool.false_eq_true, if_false, if_true]
    have hne0 : t.p.isEmpty = false := by
      cases hpp : t.p with
      | nil => rw [hpp] at hl1; simp at hl1
      | cons a as => simp
    simp only [hne0, Bool.false_eq_true, if_false, hl1, if_true]
    rw [param_content_span q]
    cases hpf : P.parsed_flat_q
        (q.dropWhile (fun s => !(contains_sub s ".end param"))) <;>
      simp [hpf, Except.map]
  · intro hl2
    rw [P.parsed_flat_q, if_neg hne, hp]
    simp only [hanno, hparam, Bool.false_eq_true, if_false, if_true]
    have hne0 : t.p.isEmpty = false := by
      cases hpp : t.p with
      | nil => rw [hpp] at hl2; simp at hl2
      | cons a as => simp
    have hne1 : ¬(t.p.length = 1) := by omega
    simp only [hne0, Bool.false_eq_true, if_false, hne1]
    cases hpf : P.parsed_flat_q q <;> simp [hpf, Except.map]

/-- C10 witness: the bare ".param" line (head lexes to a param directive
with no parameter tokens) aborts with the assertion failure. -/
theorem C10_param_demotion_witness :
    P.parsed_flat_q [".param"] = .error .assertionError :=
  (C10_param_demotion ".param" [] (Op.mk "directive" "param" [] 0)
      (by decide) rfl rfl rfl).1 rfl
